import Mathlib

/- Batteries marks the core `Rat` operations `irreducible` merely to keep
`simp` and unification from unfolding them; restore the default reducibility
status so that `decide` can evaluate closed rational computations.  This
only affects elaboration: kernel checking never depends on reducibility
attributes. -/
set_option allowUnsafeReducibility true
attribute [semireducible] Rat.mul Rat.add Rat.sub Rat.inv Rat.ofScientific

/-!
Verification development for the tesseract trade-intelligence backend.

The Python sources under `backend/app` are shallowly embedded here:

* numbers are modelled as `ℚ` (Python floats, taken at exact value);
* Python `None`-able values are `Option`;
* Python dictionaries of raw/canonical shipment records become structures
  whose fields are the keys the code reads;
* dates are modelled as integers ordered like calendar dates (a valid ISO
  date `YYYY-MM-DD` is encoded as the integer `YYYYMMDD`, which is
  order-isomorphic to the calendar order used by Python `date` comparison,
  `max` and `min`);
* Python truthiness (`x or y`, `if x:`) is modelled explicitly: a numeric
  value is falsy iff it is `none` or `some 0`; a string value is falsy iff
  it is `none` or `some ""`.

Each embedded definition keeps the name of the source function it models.
-/

namespace Tesseract

/-- Python `str.upper()` (ASCII data here). -/
def upperStr (s : String) : String := ⟨s.data.map Char.toUpper⟩

/-- Python `str.lower()` (ASCII data here). -/
def lowerStr (s : String) : String := ⟨s.data.map Char.toLower⟩

/-- Python `str.strip()`. -/
def trimStr (s : String) : String :=
  ⟨((s.data.dropWhile Char.isWhitespace).reverse.dropWhile Char.isWhitespace).reverse⟩

/-- Python slicing `s[:n]`. -/
def takeStr (s : String) (n : ℕ) : String := ⟨s.data.take n⟩

/-- Python `s.startswith(pat)`. -/
def startsWithStr (s pat : String) : Bool := pat.data.isPrefixOf s.data

/-- Occurrence of a character pattern inside a character list (the empty
pattern occurs everywhere). -/
def occursIn : List Char → List Char → Bool
  | _, [] => true
  | [], _ :: _ => false
  | c :: rest, p :: ps => (p :: ps).isPrefixOf (c :: rest) || occursIn rest (p :: ps)

/-- Python substring test `pat in s`. -/
def strContains (s pat : String) : Bool := occursIn s.data pat.data

/-- Python `a or b` on two optional numeric values: `a` is kept iff it is
truthy, i.e. present and non-zero. -/
def pyOrQ (a b : Option ℚ) : Option ℚ :=
  match a with
  | some x => if x = 0 then b else some x
  | none => b

/-- Python `a or b` on two optional strings: `a` is kept iff it is present
and non-empty. -/
def pyOrS (a b : Option String) : Option String :=
  match a with
  | some x => if x = "" then b else some x
  | none => b

/-- Truthiness of an optional numeric value. -/
def truthyQ (a : Option ℚ) : Bool :=
  match a with
  | some x => x ≠ 0
  | none => false

/-- Truthiness of an optional string value. -/
def truthyS (a : Option String) : Bool :=
  match a with
  | some x => x ≠ ""
  | none => false

/-- Python 3 `round` to an integer: round half to even. -/
def roundHalfEven (x : ℚ) : ℤ :=
  let f : ℤ := ⌊x⌋
  let r : ℚ := x - f
  if r < 1/2 then f
  else if 1/2 < r then f + 1
  else if f % 2 = 0 then f else f + 1

/-- Python `round(x, 2)` (exact-decimal model of the float rounding). -/
def round2 (x : ℚ) : ℚ := (roundHalfEven (x * 100) : ℚ) / 100

/-! ## `app/data/reference_tables.py` -/

/-- One row of `FREIGHT_RATES` (fields the code reads). -/
structure FreightRow where
  origin_port : String
  destination_port : String
  rate_per_mt : ℚ

/-- `FREIGHT_RATES` — freight rate reference (USD per MT). -/
def FREIGHT_RATES : List FreightRow :=
  [⟨"ABIDJAN", "TUTICORIN", 42.50⟩,
   ⟨"ABIDJAN", "MANGALORE", 44.00⟩,
   ⟨"TEMA", "TUTICORIN", 40.00⟩,
   ⟨"LAGOS", "TUTICORIN", 45.00⟩,
   ⟨"DAR ES SALAAM", "TUTICORIN", 35.00⟩,
   ⟨"ABIDJAN", "HO CHI MINH", 55.00⟩,
   ⟨"TEMA", "HO CHI MINH", 53.00⟩,
   ⟨"DJIBOUTI", "KANDLA", 28.00⟩,
   ⟨"LAGOS", "TIANJIN", 60.00⟩,
   ⟨"LAGOS", "QINGDAO", 58.00⟩,
   ⟨"KAKINADA", "LAGOS", 48.00⟩,
   ⟨"KANDLA", "LAGOS", 46.00⟩,
   ⟨"KAKINADA", "TEMA", 47.00⟩]

/-- `lookup_freight` — find the freight rate for a port pair (USD/MT). -/
def lookup_freight (origin_port dest_port : Option String) : Option ℚ :=
  if truthyS origin_port = false ∨ truthyS dest_port = false then none
  else
    let o := trimStr (upperStr (origin_port.getD ""))
    let d := trimStr (upperStr (dest_port.getD ""))
    FREIGHT_RATES.findSome? fun e =>
      if (strContains o e.origin_port ∧ strContains d e.destination_port) ∨
         (strContains e.origin_port o ∧ strContains e.destination_port d) then
        some e.rate_per_mt
      else none

/-- `HIGH_RISK_PORTS["gulf_of_guinea"]`. -/
def GULF_OF_GUINEA_PORTS : List String :=
  ["LAGOS", "APAPA", "TEMA", "ABIDJAN", "LOME", "COTONOU"]

/-- `HIGH_RISK_PORTS["red_sea"]`. -/
def RED_SEA_PORTS : List String :=
  ["ADEN", "HODEIDAH", "DJIBOUTI", "PORT SUDAN"]

/-- The first risk key of `HIGH_RISK_PORTS` whose port list has a member
occurring in `portUpper` (dict iteration order: gulf of guinea, red sea). -/
def firstRiskKey (portUpper : String) : Option String :=
  if GULF_OF_GUINEA_PORTS.any (fun p => strContains portUpper p) then some "gulf_of_guinea"
  else if RED_SEA_PORTS.any (fun p => strContains portUpper p) then some "red_sea"
  else none

/-- `INSURANCE_RATES[profile]` as `(rate_pct, war_risk_pct)`; the profile is
always one of the three keys. -/
def insuranceRates (profile : String) : ℚ × ℚ :=
  if profile = "gulf_of_guinea" then (0.0015, 0.0025)
  else if profile = "red_sea" then (0.0015, 0.005)
  else (0.0015, 0)

/-- `calc_insurance` — insurance cost in USD.  The loop over
`[origin_port or "", dest_port or ""]` lets a risk match on the destination
port overwrite one found for the origin port. -/
def calc_insurance (cargo_value_usd : ℚ) (origin_port dest_port : Option String) : ℚ :=
  let profile := [origin_port.getD "", dest_port.getD ""].foldl
    (fun acc port =>
      match firstRiskKey (upperStr port) with
      | some k => k
      | none => acc) "standard"
  let rates := insuranceRates profile
  cargo_value_usd * (rates.1 + rates.2)

/-- `PORT_CHARGES` — port charges in USD per MT (dict, in insertion order). -/
def PORT_CHARGES : List (String × ℚ) :=
  [("TUTICORIN", 4.70), ("MANGALORE", 4.20), ("KOCHI", 4.50), ("KANDLA", 3.80),
   ("MUMBAI", 5.20), ("CHENNAI", 4.80), ("KAKINADA", 3.50), ("KRISHNAPATNAM", 3.80),
   ("HO CHI MINH", 5.00), ("HAI PHONG", 4.50), ("LAGOS", 8.50), ("APAPA", 8.50),
   ("TEMA", 6.00), ("ABIDJAN", 5.50), ("DAR ES SALAAM", 6.50), ("DJIBOUTI", 7.00),
   ("TIANJIN", 4.00), ("QINGDAO", 3.80), ("SHANGHAI", 3.50)]

/-- `lookup_port_charges` — total port charges for a port in USD/MT. -/
def lookup_port_charges (port : Option String) : ℚ :=
  if truthyS port = false then 0
  else
    let p := trimStr (upperStr (port.getD ""))
    match PORT_CHARGES.findSome? (fun e =>
        if strContains p e.1 ∨ strContains e.1 p then some e.2 else none) with
    | some charge => charge
    | none => 4

/-- `UNIT_CONVERSIONS` — unit string to factor-to-MT (every entry in the
source dict carries a non-`None` factor). -/
def UNIT_CONVERSIONS : List (String × ℚ) :=
  [("KGS", 0.001), ("KG", 0.001), ("MTS", 1), ("MT", 1), ("TON", 1), ("TONS", 1),
   ("TONNE", 1), ("TONNES", 1), ("LONG TON", 1.01605), ("SHORT TON", 0.907185),
   ("LBS", 0.000453592), ("QUINTAL", 0.1), ("QTL", 0.1)]

/-- `convert_to_mt` — convert a quantity to metric tonnes; returns
`(quantity_mt, unit_status)`. -/
def convert_to_mt (quantity : Option ℚ) (unit : Option String) (commodity_hint : String) :
    Option ℚ × String :=
  match quantity with
  | none => (none, "MISSING")
  | some q =>
    if q ≤ 0 then (none, "MISSING")
    else
      match unit with
      | none =>
        if q > 5000 then (some (q * 0.001), "ASSUMED_KG")
        else if q < 200 then (some q, "ASSUMED_MT")
        else (none, "UNRESOLVABLE")
      | some u =>
        let uu := trimStr (upperStr u)
        match UNIT_CONVERSIONS.findSome?
            (fun e => if e.1 = uu then some e.2 else none) with
        | some factor => (some (q * factor), "OK")
        | none =>
          if uu = "BAGS" ∨ uu = "BAG" then
            if commodity_hint ≠ "" ∧ strContains (lowerStr commodity_hint) "cashew" then
              (some (q * 0.08), "OK")
            else if commodity_hint ≠ "" ∧ strContains (lowerStr commodity_hint) "rice" then
              (some (q * 0.05), "OK")
            else if commodity_hint ≠ "" ∧ strContains (lowerStr commodity_hint) "cocoa" then
              (some (q * 0.06), "OK")
            else (some (q * 0.05), "ASSUMED_BAG_WEIGHT")
          else (none, "UNRESOLVABLE")

/-- `INCOTERM_MAP` — (trade_type, trade_country) to default incoterm. -/
def INCOTERM_MAP : List ((String × String) × String) :=
  [(("EXPORT", "INDIA"), "FOB"), (("IMPORT", "INDIA"), "CIF"),
   (("EXPORT", "BRAZIL"), "FOB"), (("IMPORT", "BANGLADESH"), "CIF"),
   (("IMPORT", "VIETNAM"), "CIF"), (("EXPORT", "VIETNAM"), "FOB"),
   (("IMPORT", "NIGERIA"), "CIF"), (("EXPORT", "NIGERIA"), "FOB"),
   (("EXPORT", "ETHIOPIA"), "FOB"), (("EXPORT", "IVORY COAST"), "FOB"),
   (("EXPORT", "GHANA"), "FOB"), (("EXPORT", "TANZANIA"), "FOB"),
   (("IMPORT", "USA"), "CIF"), (("IMPORT", "INDONESIA"), "CIF"),
   (("EXPORT", "INDONESIA"), "FOB"), (("IMPORT", "PAKISTAN"), "CIF"),
   (("EXPORT", "PAKISTAN"), "FOB"), (("IMPORT", "SRI LANKA"), "CIF"),
   (("IMPORT", "KENYA"), "CIF"), (("IMPORT", "MEXICO"), "CIF"),
   (("EXPORT", "MEXICO"), "FOB"), (("IMPORT", "ARGENTINA"), "CIF"),
   (("EXPORT", "ARGENTINA"), "FOB"), (("IMPORT", "COLOMBIA"), "CIF"),
   (("EXPORT", "COLOMBIA"), "FOB"), (("IMPORT", "CHILE"), "CIF"),
   (("EXPORT", "CHILE"), "FOB"), (("IMPORT", "PHILIPPINES"), "CIF"),
   (("EXPORT", "PERU"), "FOB"), (("IMPORT", "TURKEY"), "CIF"),
   (("EXPORT", "TURKEY"), "FOB"), (("IMPORT", "KAZAKHSTAN"), "CIF"),
   (("EXPORT", "KAZAKHSTAN"), "FOB"), (("IMPORT", "URUGUAY"), "CIF"),
   (("EXPORT", "URUGUAY"), "FOB"), (("IMPORT", "CAMEROON"), "CIF"),
   (("EXPORT", "CAMEROON"), "FOB")]

/-- `infer_incoterm` — declared incoterm basis from trade type and country. -/
def infer_incoterm (trade_type trade_country : String) : String :=
  let key := (upperStr trade_type, upperStr trade_country)
  match INCOTERM_MAP.findSome? (fun e => if e.1 = key then some e.2 else none) with
  | some v => v
  | none => if upperStr trade_type = "EXPORT" then "FOB" else "CIF"

/-! ## `app/data/commodity_taxonomy.py` -/

/-- One `hs_mappings` row: `(country, hs_code, confidence)`. -/
structure HsMapping where
  country : String
  hs_code : String
  confidence : String

/-- One taxonomy entry (the fields read by the pipeline; presentation-only
fields — supergroup, standard unit, quality-grade list — are omitted). -/
structure TaxonEntry where
  hct_name : String
  hct_group : String
  hs_mappings : List HsMapping

/-- `TAXONOMY` — the Hectar Commodity Taxonomy, in dict insertion order. -/
def TAXONOMY : List (String × TaxonEntry) :=
  [("HCT-0801-RCN-INSHELL",
    ⟨"Raw Cashew Nuts (In Shell)", "Cashew Complex",
     [⟨"*", "080131", "HIGH"⟩, ⟨"INDIA", "08013110", "HIGH"⟩,
      ⟨"INDIA", "08013120", "HIGH"⟩, ⟨"VIETNAM", "08013100", "HIGH"⟩,
      ⟨"IVORY COAST", "080131", "HIGH"⟩]⟩),
   ("HCT-0801-CASHEW-KERNEL",
    ⟨"Cashew Kernels (Processed)", "Cashew Complex",
     [⟨"*", "080132", "HIGH"⟩, ⟨"INDIA", "08013200", "HIGH"⟩,
      ⟨"VIETNAM", "08013200", "HIGH"⟩]⟩),
   ("HCT-1207-SESAME",
    ⟨"Sesame Seeds", "Sesame",
     [⟨"*", "120740", "HIGH"⟩, ⟨"INDIA", "12074000", "HIGH"⟩,
      ⟨"ETHIOPIA", "120740", "HIGH"⟩, ⟨"NIGERIA", "120740", "HIGH"⟩]⟩),
   ("HCT-1006-RICE-NONBASMATI",
    ⟨"Rice (Non-Basmati)", "Rice",
     [⟨"*", "1006", "MEDIUM"⟩, ⟨"INDIA", "10063010", "HIGH"⟩,
      ⟨"INDIA", "10063090", "HIGH"⟩, ⟨"VIETNAM", "100630", "HIGH"⟩,
      ⟨"THAILAND", "100630", "HIGH"⟩]⟩),
   ("HCT-1006-RICE-BASMATI",
    ⟨"Basmati Rice", "Rice",
     [⟨"INDIA", "10063020", "HIGH"⟩, ⟨"PAKISTAN", "100630", "MEDIUM"⟩]⟩),
   ("HCT-1201-SOYBEAN",
    ⟨"Soybeans", "Soybeans",
     [⟨"*", "120190", "HIGH"⟩, ⟨"NIGERIA", "12019000", "HIGH"⟩,
      ⟨"INDIA", "12019000", "HIGH"⟩]⟩),
   ("HCT-1801-COCOA",
    ⟨"Cocoa Beans", "Cocoa", [⟨"*", "180100", "HIGH"⟩]⟩),
   ("HCT-1207-SHEA",
    ⟨"Shea Nuts/Butter", "Shea", [⟨"*", "120799", "MEDIUM"⟩]⟩),
   ("HCT-1511-PALMOIL",
    ⟨"Palm Oil", "Palm Oil",
     [⟨"*", "151110", "HIGH"⟩, ⟨"*", "151190", "HIGH"⟩]⟩),
   ("HCT-5201-COTTON",
    ⟨"Raw Cotton", "Cotton", [⟨"*", "520100", "HIGH"⟩]⟩)]

/-- Result of `classify_by_hs_code` (the fields the pipeline reads from the
returned dict). -/
structure ClassifyHit where
  hct_id : String
  hct_name : String
  hct_group : String
  match_confidence : String
deriving DecidableEq, Repr

/-- `classify_by_hs_code` — resolve an HS code to an HCT entry: a
country-exact pass over the taxonomy in order, then a wildcard pass. -/
def classify_by_hs_code (hs_code : String) (country : String) : Option ClassifyHit :=
  let hs := trimStr hs_code
  let pass1 := TAXONOMY.findSome? fun te =>
    te.2.hs_mappings.findSome? fun m =>
      if m.country = country ∧ startsWithStr hs m.hs_code then
        some ⟨te.1, te.2.hct_name, te.2.hct_group, m.confidence⟩
      else none
  match pass1 with
  | some hit => some hit
  | none =>
    TAXONOMY.findSome? fun te =>
      te.2.hs_mappings.findSome? fun m =>
        if m.country = "*" ∧ startsWithStr hs m.hs_code then
          some ⟨te.1, te.2.hct_name, te.2.hct_group, m.confidence⟩
        else none

/-! ## `app/core/normalization/quality_parser.py`

`parse_quality` dispatches on the `hct_id` family to one of five
commodity-specific sub-parsers.  The sub-parsers (regex extraction over the
upper-cased text) are taken as parameters of the embedding: every claim in
scope is settled on inputs on which no sub-parser is ever invoked, so the
theorems hold for all of their implementations. -/

/-- The quality-estimate dict `{grade, confidence, signals_used, details}`. -/
structure QualityResult where
  grade : String
  confidence : ℚ
  signals_used : List String
  details : String
deriving DecidableEq, Repr

/-- The five commodity-family sub-parsers of `quality_parser.py`, applied to
the upper-cased, stripped product text. -/
structure SubParsers where
  parseCashew : String → QualityResult
  parseCashewKernel : String → QualityResult
  parseSesame : String → QualityResult
  parseRice : String → QualityResult
  parseSoybean : String → QualityResult

/-- `parse_quality` — parse a product description into structured quality
attributes, dispatching on the `hct_id` family. -/
def parse_quality (ps : SubParsers) (product_text : Option String)
    (hct_id : Option String) : QualityResult :=
  if truthyS product_text = false then
    ⟨"Unknown", 0, [], "No description"⟩
  else
    let text := trimStr (upperStr (product_text.getD ""))
    let hid := hct_id.getD ""
    if truthyS hct_id && strContains hid "RCN" then ps.parseCashew text
    else if truthyS hct_id && strContains hid "KERNEL" then ps.parseCashewKernel text
    else if truthyS hct_id && strContains hid "SESAME" then ps.parseSesame text
    else if truthyS hct_id && strContains hid "RICE" then ps.parseRice text
    else if truthyS hct_id && strContains hid "SOYBEAN" then ps.parseSoybean text
    else ⟨"Standard", 0.3, [], ""⟩

/-! ## `app/core/normalization/pipeline.py` -/

/-- A raw Eximpedia record: the keys `NormalizationPipeline` reads.  Numeric
fields hold the already-`float()`-converted value (a field whose value would
fail `float()` is modelled as absent); `HS_CODE` holds the `str()` image of
the raw value, with Python-falsy raw values modelled as `none`. -/
structure Raw where
  FOB_USD : Option ℚ := none
  TOTAL_ASSESS_USD : Option ℚ := none
  TOTAL_VALUE_USD : Option ℚ := none
  STD_UNIT_PRICE_USD : Option ℚ := none
  STD_QUANTITY : Option ℚ := none
  UNIT_PRICE_USD : Option ℚ := none
  QUANTITY : Option ℚ := none
  FOB_INR : Option ℚ := none
  USD_EXCHANGE_RATE : Option ℚ := none
  ITEM_RATE_INR : Option ℚ := none
  STD_ITEM_RATE_INR : Option ℚ := none
  TOTAL_ASSESSABLE_VALUE_INR : Option ℚ := none
  HS_CODE : Option String := none
  HS_CODE_2 : Option String := none
  HS_CODE_4 : Option String := none
  UNIT : Option String := none
  STD_UNIT : Option String := none
  INDIAN_PORT : Option String := none
  FOREIGN_PORT : Option String := none
  PORT_OF_SHIPMENT : Option String := none
  IMP_DATE : Option String := none
  EXP_DATE : Option String := none
  DATE : Option String := none
  ORIGIN_COUNTRY : Option String := none
  COUNTRY : Option String := none
  DESTINATION_COUNTRY : Option String := none
  DECLARATION_NO : Option String := none
  BILL_NO : Option String := none
  PRODUCT_DESCRIPTION : Option String := none
  PRODUCT : Option String := none
  BUYER_NAME : Option String := none
  STD_BUYER_NAME : Option String := none
  EXPORTER_NAME : Option String := none
  IMPORTER_NAME : Option String := none
  SUPPLIER_NAME : Option String := none
  UPDATED_SUPPLIER_NAME : Option String := none
  CURRENCY : Option String := none
  INVOICE_CURRENCY : Option String := none

/-- `NormalizationPipeline._extract_price` — the USD price-extraction
priority ladder; returns `(price, price_source)`.  (The source function also
receives the trade country but never reads it.)  A division whose divisor is
zero is skipped in the source via `ZeroDivisionError`; here `x / 0 = 0`
fails the `0 < val` test, skipping the rung identically. -/
def extract_price (raw : Raw) : Option ℚ × String :=
  let rung1 := match raw.FOB_USD with
    | some v => if 0 < v then some (v, "FOB_USD") else none
    | none => none
  let rung2 := match pyOrQ raw.TOTAL_ASSESS_USD raw.TOTAL_VALUE_USD with
    | some v => if 0 < v then some (v, "TOTAL_ASSESS_USD") else none
    | none => none
  let rung3 := match raw.STD_UNIT_PRICE_USD, raw.STD_QUANTITY with
    | some u, some q => if 0 < u * q then some (u * q, "STD_UNIT_PRICE_x_QTY") else none
    | _, _ => none
  let rung4 := match raw.UNIT_PRICE_USD, raw.QUANTITY with
    | some u, some q => if 0 < u * q then some (u * q, "UNIT_PRICE_x_QTY") else none
    | _, _ => none
  let rung5 := match raw.FOB_INR, raw.USD_EXCHANGE_RATE with
    | some a, some fx => if 0 < a / fx then some (a / fx, "FOB_INR_converted") else none
    | _, _ => none
  let rung6 := match pyOrQ raw.ITEM_RATE_INR raw.STD_ITEM_RATE_INR, raw.QUANTITY,
      raw.USD_EXCHANGE_RATE with
    | some r, some q, some fx =>
      if 0 < r * q / fx then some (r * q / fx, "ITEM_RATE_INR_converted") else none
    | _, _, _ => none
  let rung7 := match raw.TOTAL_ASSESSABLE_VALUE_INR, raw.USD_EXCHANGE_RATE with
    | some a, some fx =>
      if 0 < a / fx then some (a / fx, "TOTAL_ASSESSABLE_VALUE_INR_converted") else none
    | _, _ => none
  match rung1 <|> rung2 <|> rung3 <|> rung4 <|> rung5 <|> rung6 <|> rung7 with
  | some (v, src) => (some v, src)
  | none => (none, "MISSING")

/-- The canonical shipment record returned by `normalize` (all fields of the
returned dict except `quality_estimate` — modelled separately by
`parse_quality`, it feeds no other field — and the wall-clock
`normalized_at` / constant `normalization_version` metadata). -/
structure Canonical where
  record_id : Option String
  declaration_no : Option String
  bill_no : Option String
  trade_date : Option String
  trade_type : String
  trade_country : String
  consignee : Option String
  consignor : Option String
  origin_country : Option String
  origin_port : Option String
  destination_country : Option String
  destination_port : Option String
  hs_code : String
  hs_code_2 : Option String
  hs_code_4 : Option String
  hct_id : Option String
  hct_name : String
  hct_group : String
  product_description : String
  quantity_mt : Option ℚ
  quantity_original : Option ℚ
  unit_original : Option String
  unit_status : String
  fob_usd_total : Option ℚ
  fob_usd_per_mt : Option ℚ
  declared_incoterm : String
  price_source : String
  price_status : String
  currency_original : Option String
  freight_deducted : Option ℚ
  insurance_deducted : Option ℚ
  port_charges_deducted : Option ℚ
deriving DecidableEq, Repr

/-- `NormalizationPipeline.normalize` — normalize a single raw record. -/
def normalize (raw : Raw) (trade_type trade_country : String) : Canonical :=
  let tt := upperStr trade_type
  let tc := upperStr trade_country
  let is_export := tt = "EXPORT"
  -- Step 1: incoterm basis
  let incoterm := infer_incoterm tt tc
  -- Step 2: price extraction
  let priceExtracted := extract_price raw
  let price_usd := priceExtracted.1
  -- Step 3: HS normalization and commodity classification
  let hs0 := match raw.HS_CODE with
    | some s => if s = "" then "" else trimStr s
    | none => ""
  let hs_code :=
    if hs0 ≠ "" ∧ hs0.data.all Char.isDigit ∧ hs0.data.length < 8 ∧ hs0.data.length % 2 = 1 then
      "0" ++ hs0
    else hs0
  let hct := classify_by_hs_code hs_code tc
  let hct_id := hct.map (·.hct_id)
  let hct_name := match hct with
    | some h => h.hct_name
    | none => "Unclassified"
  let hct_group := match hct with
    | some h => h.hct_group
    | none => "Unknown"
  -- Step 4: quantity standardization, with one STD_* retry
  let conv1 := convert_to_mt (pyOrQ raw.QUANTITY raw.STD_QUANTITY)
    (pyOrS raw.UNIT raw.STD_UNIT) hct_name
  let conv :=
    if conv1.2 = "UNRESOLVABLE" ∧ truthyQ raw.STD_QUANTITY ∧ truthyS raw.STD_UNIT then
      convert_to_mt raw.STD_QUANTITY raw.STD_UNIT hct_name
    else conv1
  let quantity_mt := conv.1
  let unit_status := conv.2
  -- Step 5: ports by trade direction
  let origin_port := if is_export then raw.INDIAN_PORT
    else pyOrS raw.PORT_OF_SHIPMENT raw.FOREIGN_PORT
  let dest_port := if is_export then raw.FOREIGN_PORT else raw.INDIAN_PORT
  -- Step 6: normalize to FOB USD
  let fobTriple : Option ℚ × String × (Option ℚ × ℚ × ℚ) × Bool :=
    match price_usd with
    | some p =>
      if incoterm = "FOB" then (some p, "direct_fob", (none, 0, 0), false)
      else if incoterm = "CIF" then
        let freight_used := lookup_freight origin_port dest_port
        let insurance_used := calc_insurance p origin_port dest_port
        let port_charges_used := lookup_port_charges dest_port
        let deductions :=
          match freight_used, quantity_mt with
          | some f, some q =>
            if f ≠ 0 ∧ q ≠ 0 ∧ 0 < q then
              f * q + insurance_used + port_charges_used * q
            else f + insurance_used + port_charges_used
          | some f, none => f + insurance_used + port_charges_used
          | none, _ => 0 + insurance_used + port_charges_used
        (some (max (p - deductions) 0), "derived_from_cif",
         (freight_used, insurance_used, port_charges_used), true)
      else (some p, "assumed_unknown_basis", (none, 0, 0), false)
    | none => (none, "assumed_unknown_basis", (none, 0, 0), false)
  let fob_usd := fobTriple.1
  let fob_source := fobTriple.2.1
  let cifUsed := fobTriple.2.2.2
  let freight_deducted := if cifUsed then fobTriple.2.2.1.1 else none
  let insurance_deducted := if cifUsed then some fobTriple.2.2.1.2.1 else none
  let port_charges_deducted := if cifUsed then some fobTriple.2.2.1.2.2 else none
  -- Step 7: unit price
  let fob_per_mt := match fob_usd, quantity_mt with
    | some f, some q => if q ≠ 0 ∧ 0 < q then some (f / q) else none
    | _, _ => none
  -- Step 8 (quality parse) is modelled by `parse_quality` above.
  let product_text := (pyOrS raw.PRODUCT_DESCRIPTION raw.PRODUCT).getD ""
  -- Step 9: price status
  let price_status :=
    if fob_usd = none ∨ fob_usd = some 0 then "MISSING"
    else match fob_per_mt with
      | some m => if m < 10 then "SUSPECT_LOW"
          else if m > 50000 then "SUSPECT_HIGH" else "NORMAL"
      | none => "NORMAL"
  -- trade date, with "T..." truncation
  let td0 := pyOrS (pyOrS raw.IMP_DATE raw.EXP_DATE) raw.DATE
  let trade_date := match td0 with
    | some s => if s ≠ "" ∧ strContains s "T" then some (takeStr s 10) else td0
    | none => td0
  -- origin / destination country
  let origin_country := if is_export then some tc else raw.ORIGIN_COUNTRY
  let destination_country := if is_export then pyOrS raw.COUNTRY raw.DESTINATION_COUNTRY
    else some tc
  -- buyer / seller
  let consignee := if is_export then pyOrS raw.BUYER_NAME raw.STD_BUYER_NAME
    else raw.IMPORTER_NAME
  let consignor := if is_export then raw.EXPORTER_NAME
    else pyOrS raw.SUPPLIER_NAME raw.UPDATED_SUPPLIER_NAME
  { record_id := raw.DECLARATION_NO
    declaration_no := raw.DECLARATION_NO
    bill_no := raw.BILL_NO
    trade_date := trade_date
    trade_type := tt
    trade_country := tc
    consignee := consignee
    consignor := consignor
    origin_country := origin_country
    origin_port := origin_port
    destination_country := destination_country
    destination_port := dest_port
    hs_code := hs_code
    hs_code_2 := pyOrS raw.HS_CODE_2 (if hs_code ≠ "" then some (takeStr hs_code 2) else none)
    hs_code_4 := pyOrS raw.HS_CODE_4 (if hs_code ≠ "" then some (takeStr hs_code 4) else none)
    hct_id := hct_id
    hct_name := hct_name
    hct_group := hct_group
    product_description := product_text
    quantity_mt := quantity_mt
    quantity_original := raw.QUANTITY
    unit_original := raw.UNIT
    unit_status := unit_status
    fob_usd_total := fob_usd
    fob_usd_per_mt := fob_per_mt
    declared_incoterm := incoterm
    price_source := fob_source
    price_status := price_status
    currency_original := pyOrS raw.CURRENCY raw.INVOICE_CURRENCY
    freight_deducted := freight_deducted
    insurance_deducted := insurance_deducted
    port_charges_deducted := port_charges_deducted }

/-! ## `app/core/intelligence/ipc.py` -/

/-- Python tuple comparison on `(value, weight)` pairs (used by
`sorted(zip(values, weights))`): lexicographic order. -/
def pairLe (a b : ℚ × ℚ) : Prop := a.1 < b.1 ∨ (a.1 = b.1 ∧ a.2 ≤ b.2)

instance : DecidableRel pairLe := fun a b =>
  inferInstanceAs (Decidable (a.1 < b.1 ∨ (a.1 = b.1 ∧ a.2 ≤ b.2)))

instance : IsTotal (ℚ × ℚ) pairLe where
  total a b := by
    rcases lt_trichotomy a.1 b.1 with h | h | h
    · exact Or.inl (Or.inl h)
    · rcases le_total a.2 b.2 with h2 | h2
      · exact Or.inl (Or.inr ⟨h, h2⟩)
      · exact Or.inr (Or.inr ⟨h.symm, h2⟩)
    · exact Or.inr (Or.inl h)

instance : IsTrans (ℚ × ℚ) pairLe where
  trans a b c hab hbc := by
    rcases hab with h1 | ⟨e1, w1⟩ <;> rcases hbc with h2 | ⟨e2, w2⟩
    · exact Or.inl (h1.trans h2)
    · exact Or.inl (e2 ▸ h1)
    · exact Or.inl (e1 ▸ h2)
    · exact Or.inr ⟨e1.trans e2, w1.trans w2⟩

/-- The cumulative walk of `_weighted_median`: starting from cumulative
weight `c`, return the first value whose running cumulative weight reaches
`half`; `none` if the list is exhausted. -/
def pickWeighted (half : ℚ) : ℚ → List (ℚ × ℚ) → Option ℚ
  | _, [] => none
  | c, x :: rest =>
    if half ≤ c + x.2 then some x.1 else pickWeighted half (c + x.2) rest

/-- `ImpliedPriceCurve._weighted_median` — weighted median of `values` with
`weights`: sort the zipped pairs, walk cumulatively to `total/2`, falling
back to the last pair's value. -/
def weighted_median (values weights : List ℚ) : ℚ :=
  match values with
  | [] => 0
  | [v] => v
  | _ =>
    let pairs := List.insertionSort pairLe (values.zip weights)
    let total := weights.sum
    match pickWeighted (total / 2) 0 pairs with
    | some v => v
    | none => ((pairs.getLast?).map Prod.fst).getD 0

/-- Total weight of a list of `(value, weight)` pairs. -/
def wSum (l : List (ℚ × ℚ)) : ℚ := (l.map Prod.snd).sum

/-- A normalized record as read by the intelligence engines: `trade_date`
holds the parsed date (already through `_parse_date`; `none` covers both a
missing and an unparseable date). -/
structure CommodityRecord where
  trade_date : Option ℤ := none
  fob_usd_per_mt : Option ℚ := none
  quantity_mt : Option ℚ := none
  price_status : String := "NORMAL"
  origin_country : Option String := none
deriving DecidableEq, Repr

/-- The window filter of `ImpliedPriceCurve.compute`: parsed date inside
`[window_start, window_end]`, truthy positive price, status `NORMAL`. -/
def ipcWindowPred (ws we : ℤ) (r : CommodityRecord) : Bool :=
  match r.trade_date, r.fob_usd_per_mt with
  | some d, some p =>
    decide (ws ≤ d) && decide (d ≤ we) && decide (p ≠ 0) && decide (0 < p) &&
      (r.price_status == "NORMAL")
  | _, _ => false

/-- Record weight in the IPC: `quantity_mt` when truthy and positive,
else `1.0`. -/
def ipcWeight (r : CommodityRecord) : ℚ :=
  match r.quantity_mt with
  | some q => if q ≠ 0 ∧ 0 < q then q else 1
  | none => 1

/-- The dict returned by `ImpliedPriceCurve.compute`. -/
structure IpcResult where
  price_usd_per_mt : Option ℚ
  confidence : String
  n_records : ℕ
  volume_mt : ℚ
  price_iqr : Option ℚ
  price_min : Option ℚ
  price_max : Option ℚ
  price_mean : Option ℚ
  window_start : Option ℤ
  window_end : Option ℤ
deriving DecidableEq, Repr

/-- `ImpliedPriceCurve._empty_result`. -/
def emptyIpcResult (ws we : Option ℤ) : IpcResult :=
  ⟨none, "NONE", 0, 0, none, none, none, none, ws, we⟩

/-- `ImpliedPriceCurve.compute` — volume-weighted median price over a
rolling window, with confidence tiering.  `today` supplies the wall-clock
date the source reads when no record carries a date. -/
def ipcCompute (today : ℤ) (records : List CommodityRecord)
    (target_date : Option ℤ) (window_days : ℤ)
    (min_records_high min_records_medium : ℕ) : IpcResult :=
  if records = [] then emptyIpcResult none none
  else
    let target := match target_date with
      | some t => t
      | none =>
        match (records.filterMap (·.trade_date)).max? with
        | some m => m
        | none => today
    let ws := target - window_days
    let we := target
    let wrecs := records.filter (ipcWindowPred ws we)
    if wrecs = [] then emptyIpcResult (some ws) (some we)
    else
      let prices := wrecs.map (fun r => (r.fob_usd_per_mt).getD 0)
      let weights := wrecs.map ipcWeight
      let total_volume := weights.sum
      let wm := weighted_median prices weights
      let n := wrecs.length
      let sorted_prices := List.insertionSort (· ≤ ·) prices
      let q1_idx := sorted_prices.length / 4 - 1
      let q3_idx := min (sorted_prices.length - 1) (3 * sorted_prices.length / 4)
      let iqr := if sorted_prices.length > 1 then
          sorted_prices.getD q3_idx 0 - sorted_prices.getD q1_idx 0
        else 0
      let dispersion := if 0 < wm then iqr / wm else 1
      let conf := if n ≥ min_records_high ∧ dispersion < 0.15 then "HIGH"
        else if n ≥ min_records_medium then "MEDIUM"
        else "LOW"
      { price_usd_per_mt := some (round2 wm)
        confidence := conf
        n_records := n
        volume_mt := round2 total_volume
        price_iqr := some (round2 iqr)
        price_min := some (round2 ((prices.min?).getD 0))
        price_max := some (round2 ((prices.max?).getD 0))
        price_mean := some (round2 (prices.sum / n))
        window_start := some ws
        window_end := some we }

/-! ## `app/core/intelligence/corridor.py` -/

/-- The dict returned by `CorridorAnalyzer.compute_fab` (`ipc_n_records` is
present only on the success path, `note` only on the no-data path). -/
structure FabResult where
  origin : String
  origin_port : String
  dest_port : String
  fob_usd_per_mt : Option ℚ
  freight_usd_per_mt : Option ℚ
  insurance_usd_per_mt : Option ℚ
  port_charges_usd_per_mt : Option ℚ
  implied_cif_usd_per_mt : Option ℚ
  ipc_confidence : String
  ipc_n_records : Option ℕ
  note : Option String
deriving DecidableEq, Repr

/-- `CorridorAnalyzer.compute_fab` — freight-adjusted basis for a corridor:
origin-filtered IPC, then implied CIF = FOB + freight + insurance + port
charges, with insurance computed at the flat standard rate. -/
def compute_fab (today : ℤ) (records : List CommodityRecord)
    (origin_country origin_port dest_port : String) (target_date : Option ℤ) :
    FabResult :=
  let origin_records := records.filter
    (fun r => upperStr (r.origin_country.getD "") == upperStr origin_country)
  let ipc := ipcCompute today origin_records target_date 5 20 5
  match ipc.price_usd_per_mt with
  | none =>
    ⟨origin_country, origin_port, dest_port, none, none, none, none, none,
     ipc.confidence, none, some "Insufficient price data"⟩
  | some fob_price =>
    let freight := (lookup_freight (some origin_port) (some dest_port)).getD 0
    let insurance := fob_price * 0.0015
    let port_charges := lookup_port_charges (some dest_port)
    let implied_cif := fob_price + freight + insurance + port_charges
    ⟨origin_country, origin_port, dest_port, some (round2 fob_price),
     some (round2 freight), some (round2 insurance), some (round2 port_charges),
     some (round2 implied_cif), ipc.confidence, some ipc.n_records, none⟩

/-! ## `app/core/eximpedia/client.py`

`EximpediaClient._request` is modelled against a response oracle
`f : ℕ → ℕ` giving the HTTP status of the `i`-th upstream POST (transport
errors are out of scope; every request yields a status).  The loop
`for attempt in range(4)` is the fuel argument; the token refreshes
performed through `invalidate` + `get_token` on a 401 are counted. -/

/-- Result of `_request`: a successful JSON body (identified by the index
of the request that returned 200) or an `EximpediaAPIError(status, ...)`;
status `0` is the terminal "Exhausted all retry attempts" error. -/
inductive ReqResult where
  | ok (requestIdx : ℕ)
  | apiError (status : ℕ)
deriving DecidableEq, Repr

/-- The retry loop of `_request`: `i` is the index of the next request,
`refreshes` the number of token refreshes so far, and the last argument the
remaining iterations of `for attempt in range(4)`. -/
def requestLoop (f : ℕ → ℕ) : ℕ → ℕ → ℕ → ReqResult × ℕ
  | _, refreshes, 0 => (.apiError 0, refreshes)
  | i, refreshes, n + 1 =>
    let s := f i
    if s = 401 then requestLoop f (i + 1) (refreshes + 1) n
    else if s = 429 then requestLoop f (i + 1) refreshes n
    else if s = 200 then (.ok i, refreshes)
    else (.apiError s, refreshes)

/-- `EximpediaClient._request` — run the four-attempt loop from the first
request with no refreshes performed. -/
def clientRequest (f : ℕ → ℕ) : ReqResult × ℕ := requestLoop f 0 0 4

/-! ## `app/core/harvester/engine.py` -/

/-- Outcome of one `trade_shipment_all` call: a record batch, or an
`EximpediaAPIError` whose body may advertise an availability window
(`advertised` is `some (start, end)` exactly when the status-400 body
contains "available from" and matches the date-range regex; dates are
encoded `YYYYMMDD`). -/
inductive FetchRes where
  | ok (n : ℕ)
  | err (status : ℕ) (advertised : Option (ℤ × ℤ))
deriving DecidableEq, Repr

/-- `HarvestEngine._fetch_with_date_fallback` — fetch against the oracle
`fetch`; on a 400 advertising an availability window retry exactly once
with `valid_start = max(start, advertised_start)` and
`valid_end = advertised_end`.  Returns the final outcome together with the
list of issued date ranges. -/
def fetch_with_date_fallback (fetch : ℤ → ℤ → FetchRes) (start_d end_d : ℤ) :
    FetchRes × List (ℤ × ℤ) :=
  match fetch start_d end_d with
  | .err 400 (some (adv_start, adv_end)) =>
    (fetch (max start_d adv_start) adv_end,
     [(start_d, end_d), (max start_d adv_start, adv_end)])
  | r => (r, [(start_d, end_d)])

/-! ## `app/api/routes/intelligence.py` — the record store -/

/-- The truthy `record_id`s of the stored records:
`{r["record_id"] for r in existing if r.get("record_id")}`. -/
def storeSeenIds (l : List Canonical) : List String :=
  l.filterMap fun r =>
    match r.record_id with
    | some s => if s ≠ "" then some s else none
    | none => none

/-- The per-record keep test of `store_records`:
`r.get("record_id") not in seen_ids`. -/
def storeKeepPred (seen : List String) (r : Canonical) : Bool :=
  match r.record_id with
  | some s => decide (s ∉ seen)
  | none => true

/-- `store_records` — append the batch to the per-commodity list, dropping
records whose `record_id` is already present (`_record_store` is modelled
as a total map from `hct_id` to the stored list). -/
def store_records (store : String → List Canonical) (hct_id : String)
    (records : List Canonical) : String → List Canonical :=
  let existing := store hct_id
  let newRecs := records.filter (storeKeepPred (storeSeenIds existing))
  fun k => if k = hct_id then existing ++ newRecs else store k

/-! ## `app/core/budget.py` -/

/-- The mutable counters of `APIBudgetTracker` (`_day_key` is the UTC day,
encoded `YYYYMMDD` like all dates here). -/
structure BudgetState where
  day_key : ℤ
  calls_today : ℕ
  harvest_calls_today : ℕ
  search_calls_today : ℕ
deriving DecidableEq, Repr

/-- `APIBudgetTracker.DAILY_LIMIT`. -/
def DAILY_LIMIT : ℕ := 100
/-- `APIBudgetTracker.HARVEST_BUDGET`. -/
def HARVEST_BUDGET : ℕ := 60
/-- `APIBudgetTracker.SEARCH_BUDGET`. -/
def SEARCH_BUDGET : ℕ := 40

/-- `APIBudgetTracker._maybe_reset` — zero all counters when the current
UTC day differs from the stored day key. -/
def maybe_reset (current_day : ℤ) (s : BudgetState) : BudgetState :=
  if current_day ≠ s.day_key then ⟨current_day, 0, 0, 0⟩ else s

/-- `APIBudgetTracker.record_call` — reset-if-new-day, then increment the
total and the matching sub-counter. -/
def record_call (current_day : ℤ) (s : BudgetState) (call_type : String) :
    BudgetState :=
  let s1 := maybe_reset current_day s
  { s1 with
    calls_today := s1.calls_today + 1
    harvest_calls_today :=
      if call_type = "harvest" then s1.harvest_calls_today + 1
      else s1.harvest_calls_today
    search_calls_today :=
      if call_type = "harvest" then s1.search_calls_today
      else s1.search_calls_today + 1 }

/-- `APIBudgetTracker.can_harvest` — the returned flag and the state after
the embedded `_maybe_reset`. -/
def can_harvest (current_day : ℤ) (s : BudgetState) : Bool × BudgetState :=
  let s1 := maybe_reset current_day s
  (s1.harvest_calls_today < HARVEST_BUDGET, s1)

/-- `APIBudgetTracker.can_search`. -/
def can_search (current_day : ℤ) (s : BudgetState) : Bool × BudgetState :=
  let s1 := maybe_reset current_day s
  (s1.search_calls_today < SEARCH_BUDGET, s1)

/-- The operations of the budget tracker named by the spec (the `status`
property, like the `can_*` queries, mutates only through `_maybe_reset`). -/
inductive BudgetOp where
  | recordCallOp (call_type : String)
  | canHarvestOp
  | canSearchOp
  | statusOp
deriving DecidableEq, Repr

/-- One tracker operation performed at UTC day `current_day`. -/
def budgetStep (current_day : ℤ) (s : BudgetState) : BudgetOp → BudgetState
  | .recordCallOp ct => record_call current_day s ct
  | .canHarvestOp => (can_harvest current_day s).2
  | .canSearchOp => (can_search current_day s).2
  | .statusOp => maybe_reset current_day s

/-- A sequence of tracker operations, all performed at day `current_day`. -/
def runBudgetOps (current_day : ℤ) (s : BudgetState) (ops : List BudgetOp) :
    BudgetState :=
  ops.foldl (budgetStep current_day) s

/-! ## Spec-side comparison definitions

These restate formulas exactly as the spec claims word them, to be compared
against the embedded source definitions. -/

/-- The record condition the spec claims for `IPC(R, t).n_records`:
`price_status = NORMAL`, positive price, and trade date in `[t − W, t]`. -/
def specNormalPred (t W : ℤ) (r : CommodityRecord) : Bool :=
  (r.price_status == "NORMAL") &&
  (match r.fob_usd_per_mt with
   | some p => decide (0 < p)
   | none => false) &&
  (match r.trade_date with
   | some d => decide (t - W ≤ d) && decide (d ≤ t)
   | none => false)

/-- The count the spec claims for `IPC(R, t).n_records`. -/
def specNormalCount (records : List CommodityRecord) (t W : ℤ) : ℕ :=
  (records.filter (specNormalPred t W)).length

/-- The FOB total the C2 claim asserts for a CIF record: price minus
per-MT freight and port charges both scaled by the quantity, plus the
insurance amount, clamped at zero. -/
def claimC2_fob (p : ℚ) (origin_port dest_port : Option String) (q : ℚ) : ℚ :=
  max (p - ((lookup_freight origin_port dest_port).getD 0 * q +
    calc_insurance p origin_port dest_port +
    lookup_port_charges dest_port * q)) 0

/-- The date range the C6 claim asserts for the retried request: the
intersection of the requested and advertised windows. -/
def spec_clamped_range (req_start req_end adv_start adv_end : ℤ) : ℤ × ℤ :=
  (max req_start adv_start, min req_end adv_end)

/-- The corridor insurance the C8 claim asserts: the base rate plus the
war-risk loading of the reference insurance policy applied to the IPC
price. -/
def claimC8_insurance (p : ℚ) (origin_port dest_port : String) : ℚ :=
  calc_insurance p (some origin_port) (some dest_port)

/-! ## Concrete inputs used by counterexamples and witnesses -/

/-- The S1 raw record of the spec (FOB pass-through scenario). -/
def s1raw : Raw :=
  { FOB_USD := some 1500000
    QUANTITY := some 1000
    UNIT := some "MTS"
    HS_CODE := some "8013100"
    EXP_DATE := some "2025-03-10T00:00:00Z" }

/-- A CIF import with a destination port but no origin port: the freight
lookup fails while the port-charge lookup succeeds. -/
def c2raw : Raw :=
  { TOTAL_ASSESS_USD := some 1000000
    QUANTITY := some 1000
    UNIT := some "MTS"
    INDIAN_PORT := some "TUTICORIN" }

/-- The S2-style raw record (CIF derivation scenario). -/
def s2raw : Raw :=
  { TOTAL_ASSESS_USD := some 1600000
    QUANTITY := some 1000
    UNIT := some "MTS"
    HS_CODE := some "08013100"
    ORIGIN_COUNTRY := some "IVORY COAST"
    PORT_OF_SHIPMENT := some "ABIDJAN"
    INDIAN_PORT := some "TUTICORIN"
    IMP_DATE := some "2025-04-02" }

/-- Constant sub-parsers (any implementation works for the C10 claims). -/
def constParsers : SubParsers :=
  ⟨fun _ => ⟨"A", 0, [], ""⟩, fun _ => ⟨"A", 0, [], ""⟩, fun _ => ⟨"A", 0, [], ""⟩,
   fun _ => ⟨"A", 0, [], ""⟩, fun _ => ⟨"A", 0, [], ""⟩⟩

/-- A response oracle answering 401 to the first four requests, 200 after. -/
def c5Oracle : ℕ → ℕ := fun i => if i < 4 then 401 else 200

/-- A fetch oracle rejecting the window 2024-01-01 … 2025-06-01 with a 400
advertising availability 2016-01-01 … 2026-02-10, succeeding elsewhere. -/
def c6Fetch : ℤ → ℤ → FetchRes := fun s e =>
  if s = 20240101 ∧ e = 20250601 then .err 400 (some (20160101, 20260210))
  else .ok 7

/-- The empty record store. -/
def emptyStore : String → List Canonical := fun _ => []

/-- A canonical shipment produced by the pipeline from a raw record with no
`DECLARATION_NO`: its `record_id` is null. -/
def noIdRecord : Canonical :=
  normalize { FOB_USD := some 100, QUANTITY := some 10, UNIT := some "MTS" }
    "EXPORT" "INDIA"

/-- A canonical shipment carrying a declaration number. -/
def withIdRecord : Canonical :=
  normalize
    { FOB_USD := some 100
      QUANTITY := some 10
      UNIT := some "MTS"
      DECLARATION_NO := some "D1" }
    "EXPORT" "INDIA"

/-- A record giving an origin-filtered IPC price of 1000 on 2025-04-01. -/
def c8rec : CommodityRecord :=
  { trade_date := some 20250401
    fob_usd_per_mt := some 1000
    quantity_mt := some 10
    price_status := "NORMAL"
    origin_country := some "NIGERIA" }

/-! ## Theorems -/

/-- C5 (counterexample): the claim that a 401 response is retried within
the same attempt slot — consuming none of the four retry attempts, so that
a request behaves exactly like the request stream with the 401 removed —
fails: four consecutive 401s followed by a 200 exhaust the budget, while
the stream without the leading 401 succeeds. -/
theorem c5_counterexample :
    ¬ (∀ f : ℕ → ℕ, f 0 = 401 →
        clientRequest f = clientRequest (fun i => f (i + 1))) := by
  intro h
  have h2 := h c5Oracle rfl
  have h3 : clientRequest c5Oracle = (.apiError 0, 4) := by decide
  have h4 : clientRequest (fun i => c5Oracle (i + 1)) = (.ok 3, 3) := by decide
  rw [h3, h4] at h2
  exact absurd h2 (by decide)

/-- C5 (amended): on an HTTP 401 the client invalidates and refreshes the
token and retries, but the retry consumes one of the four attempts of the
per-request retry budget: handling a 401 at request `i` is the loop
continued at request `i + 1` with one more refresh and one fewer attempt. -/
theorem c5_401_consumes_attempt (f : ℕ → ℕ) (i refreshes n : ℕ)
    (h : f i = 401) :
    requestLoop f i refreshes (n + 1) = requestLoop f (i + 1) (refreshes + 1) n := by
  simp [requestLoop, h]

/-- Witness for C5 at the concrete 401-answering oracle. -/
theorem c5_witness :
    requestLoop c5Oracle 0 0 4 = requestLoop c5Oracle 1 1 3 :=
  c5_401_consumes_attempt c5Oracle 0 0 3 rfl

/-- C6 (counterexample): the claim that the retried date range is the
intersection of the requested and advertised windows fails when the
requested end precedes the advertised end: requesting
2024-01-01 … 2025-06-01 against an advertised window
2016-01-01 … 2026-02-10, the code retries with 2024-01-01 … 2026-02-10
(the advertised end), not the intersection 2024-01-01 … 2025-06-01. -/
theorem c6_counterexample :
    (fetch_with_date_fallback c6Fetch 20240101 20250601).2 =
      [(20240101, 20250601), (20240101, 20260210)] ∧
    spec_clamped_range 20240101 20250601 20160101 20260210 =
      (20240101, 20250601) ∧
    ((20240101, 20260210) : ℤ × ℤ) ≠ (20240101, 20250601) := by
  refine ⟨by decide, by decide, by decide⟩

/-- C6 (amended): on an upstream 400 whose body advertises an availability
window, the harvester retries exactly once with the range start clamped to
`max(requested start, advertised start)` and the range end replaced by the
advertised end (the requested end is discarded, not intersected). -/
theorem c6_clamp_retry (fetch : ℤ → ℤ → FetchRes) (s e as ae : ℤ)
    (h : fetch s e = .err 400 (some (as, ae))) :
    fetch_with_date_fallback fetch s e =
      (fetch (max s as) ae, [(s, e), (max s as, ae)]) := by
  simp [fetch_with_date_fallback, h]

/-- Witness for C6 at the concrete fetch oracle. -/
theorem c6_witness :
    fetch_with_date_fallback c6Fetch 20240101 20250601 =
      (.ok 7, [(20240101, 20250601), (20240101, 20260210)]) := by
  have h := c6_clamp_retry c6Fetch 20240101 20250601 20160101 20260210 (by decide)
  rw [h]
  decide

/-- Single-step monotonicity of the budget counters within a UTC day, and
preservation of the day key. -/
theorem budgetStep_mono (d : ℤ) (s : BudgetState) (op : BudgetOp)
    (h : d = s.day_key) :
    s.calls_today ≤ (budgetStep d s op).calls_today ∧
    s.harvest_calls_today ≤ (budgetStep d s op).harvest_calls_today ∧
    s.search_calls_today ≤ (budgetStep d s op).search_calls_today ∧
    (budgetStep d s op).day_key = d := by
  cases op <;>
    simp [budgetStep, record_call, can_harvest, can_search, maybe_reset, h]
  split <;> simp

/-- C9: over any sequence of `record_call` / `can_harvest` / `can_search` /
`status` operations performed within one UTC day the three daily counters
are monotone nondecreasing, and an operation performed on a new UTC day
first resets all three counters to zero (it acts on the zeroed state). -/
theorem c9_budget_counters (s : BudgetState) (d : ℤ) :
    (∀ ops : List BudgetOp, d = s.day_key →
      s.calls_today ≤ (runBudgetOps d s ops).calls_today ∧
      s.harvest_calls_today ≤ (runBudgetOps d s ops).harvest_calls_today ∧
      s.search_calls_today ≤ (runBudgetOps d s ops).search_calls_today) ∧
    (∀ op : BudgetOp, d ≠ s.day_key →
      budgetStep d s op = budgetStep d ⟨d, 0, 0, 0⟩ op) := by
  constructor
  · intro ops
    induction ops generalizing s with
    | nil => intro h; exact ⟨le_refl _, le_refl _, le_refl _⟩
    | cons op rest ih =>
      intro h
      obtain ⟨h1, h2, h3, hday⟩ := budgetStep_mono d s op h
      obtain ⟨g1, g2, g3⟩ := ih (budgetStep d s op) hday.symm
      exact ⟨h1.trans g1, h2.trans g2, h3.trans g3⟩
  · intro op h
    cases op <;>
      simp [budgetStep, record_call, can_harvest, can_search, maybe_reset, h]

/-- Witness for C9: a concrete in-day sequence and a concrete day change. -/
theorem c9_witness :
    (⟨20250101, 1, 1, 0⟩ : BudgetState).calls_today ≤
      (runBudgetOps 20250101 ⟨20250101, 1, 1, 0⟩
        [.recordCallOp "harvest", .canSearchOp, .recordCallOp "search"]).calls_today ∧
    budgetStep 20250102 ⟨20250101, 7, 4, 3⟩ .statusOp =
      budgetStep 20250102 ⟨20250102, 0, 0, 0⟩ .statusOp := by
  refine ⟨((c9_budget_counters ⟨20250101, 1, 1, 0⟩ 20250101).1
    [.recordCallOp "harvest", .canSearchOp, .recordCallOp "search"] rfl).1,
    (c9_budget_counters ⟨20250101, 7, 4, 3⟩ 20250102).2 .statusOp (by decide)⟩

/-- C10: for a null or empty product description `parse_quality` returns
the fixed Unknown/0.0 result regardless of `hct_id` — recognized
commodity families included — and regardless of the commodity-family
sub-parsers; non-empty text of an unrecognized commodity family yields the
Standard/0.3 result instead, and the two results differ. -/
theorem c10_parse_quality_empty (ps : SubParsers) (hct : Option String) :
    parse_quality ps none hct = ⟨"Unknown", 0, [], "No description"⟩ ∧
    parse_quality ps (some "") hct = ⟨"Unknown", 0, [], "No description"⟩ ∧
    (∀ text : String, text ≠ "" →
      (truthyS hct = false ∨
        (strContains (hct.getD "") "RCN" = false ∧
         strContains (hct.getD "") "KERNEL" = false ∧
         strContains (hct.getD "") "SESAME" = false ∧
         strContains (hct.getD "") "RICE" = false ∧
         strContains (hct.getD "") "SOYBEAN" = false)) →
      parse_quality ps (some text) hct = ⟨"Standard", 0.3, [], ""⟩) ∧
    (⟨"Unknown", 0, [], "No description"⟩ : QualityResult) ≠
      ⟨"Standard", 0.3, [], ""⟩ := by
  refine ⟨by simp [parse_quality, truthyS], by simp [parse_quality, truthyS], ?_, by decide⟩
  intro text htext hfam
  have ht : truthyS (some text) = true := by simp [truthyS, htext]
  rcases hfam with hf | ⟨h1, h2, h3, h4, h5⟩
  · simp [parse_quality, ht, hf]
  · simp [parse_quality, ht, h1, h2, h3, h4, h5]

/-- Witness for C10 at concrete sub-parsers: null text with a recognized
cashew-family id still yields the Unknown result, and non-empty text with
an unrecognized id yields the Standard result. -/
theorem c10_witness :
    parse_quality constParsers none (some "HCT-0801-RCN-INSHELL") =
      ⟨"Unknown", 0, [], "No description"⟩ ∧
    parse_quality constParsers (some "STEEL BOLTS") (some "HCT-7318-BOLTS") =
      ⟨"Standard", 0.3, [], ""⟩ :=
  ⟨(c10_parse_quality_empty constParsers (some "HCT-0801-RCN-INSHELL")).1,
   (c10_parse_quality_empty constParsers (some "HCT-7318-BOLTS")).2.2.1
     "STEEL BOLTS" (by decide)
     (Or.inr (by refine ⟨?_, ?_, ?_, ?_, ?_⟩ <;> decide))⟩

/-- Any stored record with a truthy id contributes that id to the seen
set. -/
theorem mem_storeSeenIds {r : Canonical} {l : List Canonical} {s : String}
    (hr : r ∈ l) (hs : r.record_id = some s) (hne : s ≠ "") :
    s ∈ storeSeenIds l := by
  rw [storeSeenIds, List.mem_filterMap]
  exact ⟨r, hr, by rw [hs]; simp [hne]⟩

/-- C7 (counterexample): `store_records` is not idempotent on every batch:
a canonical shipment normalized from a raw record with no `DECLARATION_NO`
has a null `record_id`, escapes the dedup set, and is appended again by the
second application. -/
theorem c7_counterexample :
    store_records (store_records emptyStore "HCT-X" [noIdRecord]) "HCT-X"
        [noIdRecord] ≠
      store_records emptyStore "HCT-X" [noIdRecord] := by
  intro h
  have h2 := congrArg (fun st => (st "HCT-X").length) h
  exact absurd h2 (by decide)

/-- C7 (amended): `store_records` is idempotent on every batch in which
each record carries a non-null, non-empty `record_id` (dedup by
`record_id` drops every such record on the repeat); records with a null or
empty id are re-appended by each application. -/
theorem c7_store_idempotent (store : String → List Canonical) (hct : String)
    (B : List Canonical)
    (hB : ∀ r ∈ B, ∃ s, r.record_id = some s ∧ s ≠ "") :
    store_records (store_records store hct B) hct B =
      store_records store hct B := by
  have key : B.filter (storeKeepPred (storeSeenIds (store hct ++
      B.filter (storeKeepPred (storeSeenIds (store hct)))))) = [] := by
    rw [List.filter_eq_nil_iff]
    intro r hr
    obtain ⟨s, hs, hne⟩ := hB r hr
    simp only [storeKeepPred, hs, Bool.not_eq_true, decide_eq_false_iff_not,
      not_not]
    rw [storeSeenIds, List.filterMap_append, List.mem_append]
    by_cases hmem : s ∈ storeSeenIds (store hct)
    · exact Or.inl (by rw [storeSeenIds] at hmem; exact hmem)
    · refine Or.inr ?_
      have hr1 : r ∈ B.filter (storeKeepPred (storeSeenIds (store hct))) := by
        rw [List.mem_filter]
        exact ⟨hr, by simp only [storeKeepPred, hs]; simpa using hmem⟩
      have := mem_storeSeenIds hr1 hs hne
      rw [storeSeenIds] at this
      exact this
  funext k
  by_cases hk : k = hct
  · subst hk
    simp only [store_records, if_pos]
    rw [key, List.append_nil]
  · simp only [store_records, if_neg hk]

/-- Witness for C7: a concrete batch whose single record carries
declaration number `D1`. -/
theorem c7_witness :
    store_records (store_records emptyStore "HCT-0801-RCN-INSHELL"
        [withIdRecord]) "HCT-0801-RCN-INSHELL" [withIdRecord] =
      store_records emptyStore "HCT-0801-RCN-INSHELL" [withIdRecord] := by
  refine c7_store_idempotent emptyStore "HCT-0801-RCN-INSHELL" [withIdRecord] ?_
  intro r hr
  simp only [List.mem_singleton] at hr
  subst hr
  exact ⟨"D1", by decide, by decide⟩

/-- A value found by an exact-key scan of an association list is one of the
listed values. -/
theorem findSome?_assoc_mem {α β : Type} [DecidableEq α] (l : List (α × β))
    (key : α) (v : β)
    (h : l.findSome? (fun e => if e.1 = key then some e.2 else none) = some v) :
    v ∈ l.map Prod.snd := by
  induction l with
  | nil => simp [List.findSome?] at h
  | cons e rest ih =>
    rw [List.findSome?] at h
    by_cases he : e.1 = key
    · simp [he] at h
      simp [h]
    · simp [he] at h
      simp [ih h]

/-- `infer_incoterm` only ever produces `FOB` or `CIF`. -/
theorem infer_incoterm_cases (tt tc : String) :
    infer_incoterm tt tc = "FOB" ∨ infer_incoterm tt tc = "CIF" := by
  rw [infer_incoterm]
  rcases h : INCOTERM_MAP.findSome?
      (fun e => if e.1 = (upperStr tt, upperStr tc) then some e.2 else none) with _ | v
  · simp only [h]
    by_cases he : upperStr tt = "EXPORT" <;> simp [he]
  · simp only [h]
    have hv := findSome?_assoc_mem INCOTERM_MAP (upperStr tt, upperStr tc) v h
    have hall : ∀ w ∈ INCOTERM_MAP.map Prod.snd, w = "FOB" ∨ w = "CIF" := by decide
    simpa using hall v hv

/-- C1 (counterexample): for the S1 raw record the `FOB_USD` ladder rung
fires, yet the canonical record's `price_source` is the derivation tag
`direct_fob`, not the rung name `FOB_USD` the claim asserts. -/
theorem c1_counterexample :
    extract_price s1raw = (some 1500000, "FOB_USD") ∧
    (normalize s1raw "EXPORT" "INDIA").price_source = "direct_fob" ∧
    (normalize s1raw "EXPORT" "INDIA").price_source ≠ "FOB_USD" := by
  refine ⟨by decide, by decide, by decide⟩

/-- C1 (amended): `_extract_price` returns the ladder-rung name (used only
as a local variable), but the canonical record's `price_source` field holds
the FOB-derivation tag: `direct_fob` when a rung fired and the declared
incoterm is `FOB`, `derived_from_cif` when a rung fired and the incoterm is
`CIF`, and `assumed_unknown_basis` when no rung fired; in particular S1
normalizes with `price_source = direct_fob`. -/
theorem c1_price_source_tags (raw : Raw) (tt tc : String) :
    ((extract_price raw).1 = none →
      (normalize raw tt tc).price_source = "assumed_unknown_basis") ∧
    (∀ p, (extract_price raw).1 = some p →
      (normalize raw tt tc).price_source =
        if infer_incoterm (upperStr tt) (upperStr tc) = "FOB" then "direct_fob"
        else "derived_from_cif") := by
  constructor
  · intro hp
    simp [normalize, hp]
  · intro p hp
    rcases infer_incoterm_cases (upperStr tt) (upperStr tc) with h | h <;>
      simp [normalize, hp, h]

/-- Witness for C1 at the S1 record. -/
theorem c1_witness :
    (normalize s1raw "EXPORT" "INDIA").price_source = "direct_fob" := by
  have h := (c1_price_source_tags s1raw "EXPORT" "INDIA").2 1500000 (by decide)
  rw [h]
  decide

/-- C2 (counterexample): a CIF record with a known destination port but no
origin port (so the freight lookup fails): the code deducts the per-MT port
charge as a flat amount, while the claim's formula scales it by the
quantity — `998495.3` stored versus `993800` claimed. -/
theorem c2_counterexample :
    (normalize c2raw "IMPORT" "INDIA").declared_incoterm = "CIF" ∧
    (extract_price c2raw).1 = some 1000000 ∧
    (normalize c2raw "IMPORT" "INDIA").quantity_mt = some 1000 ∧
    (normalize c2raw "IMPORT" "INDIA").fob_usd_total = some (9984953 / 10) ∧
    claimC2_fob 1000000 (normalize c2raw "IMPORT" "INDIA").origin_port
      (normalize c2raw "IMPORT" "INDIA").destination_port 1000 = 993800 ∧
    ((9984953 / 10 : ℚ)) ≠ 993800 := by
  refine ⟨by decide, by decide, by decide, by decide, by decide, by decide⟩

/-- C2 (amended): for a CIF record with a known price, the deductions use
the claimed per-MT formula `freight·qty + insurance + port_charges·qty`
only when the freight lookup yields a nonzero rate and the quantity is
known and positive; otherwise the per-MT freight and port-charge rates are
deducted as flat amounts.  Insurance is always
`price · (0.0015 + war_loading)` via `calc_insurance`, and the result is
clamped at zero. -/
theorem c2_cif_fob_deduction (raw : Raw) (tt tc : String) (p : ℚ)
    (hc : (normalize raw tt tc).declared_incoterm = "CIF")
    (hp : (extract_price raw).1 = some p) :
    (normalize raw tt tc).insurance_deducted =
      some (calc_insurance p (normalize raw tt tc).origin_port
        (normalize raw tt tc).destination_port) ∧
    (normalize raw tt tc).port_charges_deducted =
      some (lookup_port_charges (normalize raw tt tc).destination_port) ∧
    (normalize raw tt tc).freight_deducted =
      lookup_freight (normalize raw tt tc).origin_port
        (normalize raw tt tc).destination_port ∧
    (normalize raw tt tc).fob_usd_total = some (max (p -
      (match lookup_freight (normalize raw tt tc).origin_port
          (normalize raw tt tc).destination_port,
        (normalize raw tt tc).quantity_mt with
      | some f, some q =>
        if f ≠ 0 ∧ q ≠ 0 ∧ 0 < q then
          f * q +
            calc_insurance p (normalize raw tt tc).origin_port
              (normalize raw tt tc).destination_port +
            lookup_port_charges (normalize raw tt tc).destination_port * q
        else
          f + calc_insurance p (normalize raw tt tc).origin_port
              (normalize raw tt tc).destination_port +
            lookup_port_charges (normalize raw tt tc).destination_port
      | some f, none =>
        f + calc_insurance p (normalize raw tt tc).origin_port
            (normalize raw tt tc).destination_port +
          lookup_port_charges (normalize raw tt tc).destination_port
      | none, _ =>
        0 + calc_insurance p (normalize raw tt tc).origin_port
            (normalize raw tt tc).destination_port +
          lookup_port_charges (normalize raw tt tc).destination_port)) 0) := by
  have hinc : infer_incoterm (upperStr tt) (upperStr tc) = "CIF" := by
    simpa [normalize] using hc
  refine ⟨?_, ?_, ?_, ?_⟩ <;> simp [normalize, hp, hinc]

/-- Witness for C2 at the S2-style record: freight 42.50/MT over 1000 MT,
insurance 6400 (gulf-of-guinea loading for ABIDJAN), port charges 4.70/MT. -/
theorem c2_witness :
    (normalize s2raw "IMPORT" "INDIA").fob_usd_total = some 1546400 ∧
    (normalize s2raw "IMPORT" "INDIA").insurance_deducted = some 6400 := by
  obtain ⟨h1, _, _, h4⟩ :=
    c2_cif_fob_deduction s2raw "IMPORT" "INDIA" 1600000 (by decide) (by decide)
  constructor
  · rw [h4]; decide
  · rw [h1]; decide

/-- C8 (counterexample): with origin port LAGOS (on the Gulf-of-Guinea risk
list) and an origin IPC price of 1000, the corridor FAB reports insurance
1.50 (flat 0.0015), while the claimed war-risk-loaded policy gives 4.00. -/
theorem c8_counterexample :
    (compute_fab 20250401 [c8rec] "NIGERIA" "LAGOS" "TUTICORIN"
      (some 20250401)).insurance_usd_per_mt = some (3 / 2) ∧
    round2 (claimC8_insurance 1000 "LAGOS" "TUTICORIN") = 4 ∧
    ((3 / 2 : ℚ)) ≠ 4 := by
  refine ⟨by decide, by decide, by decide⟩

/-- C8 (amended): when the origin IPC price is known, the corridor FAB
insurance is the flat standard rate `IPC · 0.0015` with no war-risk loading
(the risk-port lists are not consulted), and the implied CIF equals
FOB + freight + insurance + port charges. -/
theorem c8_fab_insurance_and_cif (today : ℤ) (records : List CommodityRecord)
    (oc op dp : String) (t : Option ℤ) (p : ℚ)
    (h : (ipcCompute today (records.filter
        (fun r => upperStr (r.origin_country.getD "") == upperStr oc)) t 5 20
        5).price_usd_per_mt = some p) :
    (compute_fab today records oc op dp t).fob_usd_per_mt = some (round2 p) ∧
    (compute_fab today records oc op dp t).insurance_usd_per_mt =
      some (round2 (p * 0.0015)) ∧
    (compute_fab today records oc op dp t).implied_cif_usd_per_mt =
      some (round2 (p + (lookup_freight (some op) (some dp)).getD 0 +
        p * 0.0015 + lookup_port_charges (some dp))) := by
  refine ⟨?_, ?_, ?_⟩ <;> simp [compute_fab, h]

/-- Witness for C8 at the concrete NIGERIA/LAGOS → TUTICORIN corridor. -/
theorem c8_witness :
    (compute_fab 20250401 [c8rec] "NIGERIA" "LAGOS" "TUTICORIN"
      (some 20250401)).implied_cif_usd_per_mt = some (5256 / 5) := by
  obtain ⟨_, _, h3⟩ := c8_fab_insurance_and_cif 20250401 [c8rec] "NIGERIA"
    "LAGOS" "TUTICORIN" (some 20250401) 1000 (by decide)
  rw [h3]
  decide

/-- The window filter of `ImpliedPriceCurve.compute` agrees pointwise with
the condition the spec states for `n_records` (the code's extra truthiness
test `price and price > 0` is equivalent to positivity). -/
theorem ipcWindowPred_eq_specNormalPred (t W : ℤ) (r : CommodityRecord) :
    ipcWindowPred (t - W) t r = specNormalPred t W r := by
  rcases hd : r.trade_date with _ | d <;> rcases hp : r.fob_usd_per_mt with _ | pv <;>
    simp [ipcWindowPred, specNormalPred, hd, hp]
  rw [Bool.eq_iff_iff]
  simp only [Bool.and_eq_true, decide_eq_true_eq, beq_iff_eq,
    Bool.not_eq_true', decide_eq_false_iff_not]
  constructor
  · rintro ⟨⟨⟨⟨h1, h2⟩, _⟩, h4⟩, h5⟩
    exact ⟨⟨h5, h4⟩, h1, h2⟩
  · rintro ⟨⟨h5, h4⟩, h1, h2⟩
    exact ⟨⟨⟨⟨h1, h2⟩, ne_of_gt h4⟩, h4⟩, h5⟩

/-- C4: for every record set and explicit reference date `t`, the
`n_records` field of the IPC result with window `W` equals the number of
records with `price_status = NORMAL`, positive `fob_usd_per_mt`, and trade
date in the closed interval `[t − W, t]`. -/
theorem c4_n_records (today : ℤ) (records : List CommodityRecord) (t W : ℤ) :
    (ipcCompute today records (some t) W 20 5).n_records =
      specNormalCount records t W := by
  have hfilter : records.filter (ipcWindowPred (t - W) t) =
      records.filter (specNormalPred t W) :=
    List.filter_congr (fun r _ => ipcWindowPred_eq_specNormalPred t W r)
  rw [ipcCompute, specNormalCount]
  by_cases hrec : records = []
  · simp [hrec, emptyIpcResult]
  · simp only [if_neg hrec]
    rw [hfilter]
    by_cases hw : records.filter (specNormalPred t W) = []
    · simp [hw, emptyIpcResult]
    · simp [hw]

/-! ### The weighted-median partition property (C3) -/

theorem wSum_cons (x : ℚ × ℚ) (l : List (ℚ × ℚ)) :
    wSum (x :: l) = x.2 + wSum l := by
  simp [wSum]

theorem wSum_nonneg {l : List (ℚ × ℚ)} (h : ∀ x ∈ l, 0 ≤ x.2) :
    0 ≤ wSum l := by
  induction l with
  | nil => simp [wSum]
  | cons x xs ih =>
    rw [wSum_cons]
    exact add_nonneg (h x (List.mem_cons_self x xs))
      (ih fun y hy => h y (List.mem_cons_of_mem x hy))

/-- The cumulative walk returns a value as soon as the remaining weight can
reach the half-total. -/
theorem pickWeighted_isSome (half : ℚ) :
    ∀ (l : List (ℚ × ℚ)) (c : ℚ), l ≠ [] → half ≤ c + wSum l →
      ∃ p, pickWeighted half c l = some p := by
  intro l
  induction l with
  | nil => intro c h _; exact absurd rfl h
  | cons x xs ih =>
    intro c _ hle
    by_cases hx : half ≤ c + x.2
    · exact ⟨x.1, by simp [pickWeighted, hx]⟩
    · have hxs : xs ≠ [] := by
        rintro rfl
        rw [wSum_cons] at hle
        simp [wSum] at hle
        exact hx hle
      have hle' : half ≤ (c + x.2) + wSum xs := by
        rw [wSum_cons] at hle; linarith
      obtain ⟨p, hp⟩ := ih (c + x.2) hxs hle'
      exact ⟨p, by simp [pickWeighted, hx, hp]⟩

/-- The walk returns one of the listed values. -/
theorem pickWeighted_mem (half : ℚ) :
    ∀ {l : List (ℚ × ℚ)} {c p : ℚ}, pickWeighted half c l = some p →
      p ∈ l.map Prod.fst := by
  intro l
  induction l with
  | nil => intro c p h; simp [pickWeighted] at h
  | cons x xs ih =>
    intro c p h
    by_cases hx : half ≤ c + x.2
    · simp [pickWeighted, hx] at h
      simp [h]
    · simp only [pickWeighted, if_neg hx] at h
      exact List.mem_cons_of_mem _ (by simpa using ih h)

/-- Strictly-below weights accumulated before the returned value stay at or
under the half-total. -/
theorem pickWeighted_below (half : ℚ) :
    ∀ {l : List (ℚ × ℚ)} {c p : ℚ},
      l.Pairwise (fun a b => a.1 ≤ b.1) → (∀ x ∈ l, 0 ≤ x.2) → c < half →
      pickWeighted half c l = some p →
      c + wSum (l.filter fun x => decide (x.1 < p)) ≤ half := by
  intro l
  induction l with
  | nil => intro c p _ _ _ h; simp [pickWeighted] at h
  | cons x xs ih =>
    intro c p hsort hw hc hpick
    obtain ⟨hx_le, hsort'⟩ := List.pairwise_cons.mp hsort
    by_cases hx : half ≤ c + x.2
    · have hp : p = x.1 := by
        have := hpick
        simp [pickWeighted, hx] at this
        exact this.symm
      subst hp
      have hfilter : (x :: xs).filter (fun y => decide (y.1 < x.1)) = [] := by
        rw [List.filter_eq_nil_iff]
        intro y hy
        simp only [decide_eq_true_eq, not_lt]
        rcases List.mem_cons.mp hy with h | h
        · exact le_of_eq (congrArg Prod.fst h).symm
        · exact hx_le y h
      rw [hfilter]
      simpa [wSum] using le_of_lt hc
    · have hpick' : pickWeighted half (c + x.2) xs = some p := by
        simpa [pickWeighted, hx] using hpick
      have hih := ih hsort' (fun y hy => hw y (List.mem_cons_of_mem x hy))
        (not_le.mp hx) hpick'
      have hx2 : 0 ≤ x.2 := hw x (List.mem_cons_self x xs)
      by_cases hxp : x.1 < p
      · rw [List.filter_cons_of_pos (by simpa using hxp), wSum_cons]
        linarith
      · rw [List.filter_cons_of_neg (by simpa using hxp)]
        linarith

/-- Weights of values at or below the returned value reach the half-total. -/
theorem pickWeighted_le (half : ℚ) :
    ∀ {l : List (ℚ × ℚ)} {c p : ℚ},
      l.Pairwise (fun a b => a.1 ≤ b.1) → (∀ x ∈ l, 0 ≤ x.2) →
      pickWeighted half c l = some p →
      half ≤ c + wSum (l.filter fun x => decide (x.1 ≤ p)) := by
  intro l
  induction l with
  | nil => intro c p _ _ h; simp [pickWeighted] at h
  | cons x xs ih =>
    intro c p hsort hw hpick
    obtain ⟨hx_le, hsort'⟩ := List.pairwise_cons.mp hsort
    have hw' : ∀ y ∈ xs, 0 ≤ y.2 := fun y hy => hw y (List.mem_cons_of_mem x hy)
    by_cases hx : half ≤ c + x.2
    · have hp : p = x.1 := by
        have := hpick
        simp [pickWeighted, hx] at this
        exact this.symm
      subst hp
      rw [List.filter_cons_of_pos (by simp), wSum_cons]
      have hnn : 0 ≤ wSum (xs.filter fun y => decide (y.1 ≤ x.1)) :=
        wSum_nonneg fun y hy => hw' y (List.mem_filter.mp hy).1
      linarith
    · have hpick' : pickWeighted half (c + x.2) xs = some p := by
        simpa [pickWeighted, hx] using hpick
      have hih := ih hsort' hw' hpick'
      have hxp : x.1 ≤ p := by
        obtain ⟨y, hy, rfl⟩ := List.mem_map.mp (pickWeighted_mem half hpick')
        exact hx_le y hy
      rw [List.filter_cons_of_pos (by simpa using hxp), wSum_cons]
      linarith

/-- C3: for every non-empty price list with positive weights, the weighted
median `p` satisfies the partition inequality: the weight of prices
strictly below `p` is at most half the total weight, and the weight of
prices at or below `p` is at least half the total weight. -/
theorem c3_weighted_median_partition (values weights : List ℚ)
    (hlen : values.length = weights.length) (hne : values ≠ [])
    (hpos : ∀ w ∈ weights, 0 < w) :
    wSum ((values.zip weights).filter
        (fun x => decide (x.1 < weighted_median values weights))) ≤
      weights.sum / 2 ∧
    weights.sum / 2 ≤
      wSum ((values.zip weights).filter
        (fun x => decide (x.1 ≤ weighted_median values weights))) := by
  rcases values with _ | ⟨v1, vs⟩
  · exact absurd rfl hne
  rcases vs with _ | ⟨v2, vs'⟩
  · -- singleton: the median is the sole value
    rcases weights with _ | ⟨w, ws⟩
    · simp at hlen
    rcases ws with _ | ⟨w2, ws2⟩
    · have hw : 0 < w := hpos w (List.mem_singleton.mpr rfl)
      have hmed : weighted_median [v1] [w] = v1 := rfl
      rw [hmed]
      constructor
      · simp [wSum]
        linarith
      · simp [wSum]
        linarith
    · simp at hlen
  · -- at least two values
    have hlen2 : weights.length = vs'.length + 2 := by
      simpa using hlen.symm
    have hwne : weights ≠ [] := by
      intro h0
      rw [h0] at hlen2
      simp at hlen2
    set L := (v1 :: v2 :: vs').zip weights with hL
    set pairs := List.insertionSort pairLe L with hpairs
    have hperm : pairs.Perm L := List.perm_insertionSort pairLe L
    have hsorted : pairs.Pairwise (fun a b => a.1 ≤ b.1) := by
      refine (List.sorted_insertionSort pairLe L).imp ?_
      rintro a b (h | ⟨h, _⟩)
      · exact le_of_lt h
      · exact le_of_eq h
    have hwnn : ∀ x ∈ pairs, 0 ≤ x.2 := by
      rintro ⟨a, b⟩ hx
      exact le_of_lt (hpos b (List.of_mem_zip (hperm.mem_iff.mp hx)).2)
    have hsumL : wSum L = weights.sum := by
      rw [hL, wSum, List.map_snd_zip _ _ (le_of_eq hlen.symm)]
    have hsumP : wSum pairs = wSum L := by
      rw [wSum, wSum]
      exact (hperm.map Prod.snd).sum_eq
    have wpos : 0 < weights.sum :=
      List.sum_pos weights hpos hwne
    have hpairs_ne : pairs ≠ [] := by
      intro h0
      have := hperm.length_eq
      rw [h0, hL] at this
      simp [List.length_zip, hlen2] at this
    have hcross : weights.sum / 2 ≤ 0 + wSum pairs := by
      rw [hsumP, hsumL]
      linarith
    obtain ⟨p, hp⟩ := pickWeighted_isSome (weights.sum / 2) pairs 0 hpairs_ne hcross
    have hmed : weighted_median (v1 :: v2 :: vs') weights = p := by
      have hunfold : weighted_median (v1 :: v2 :: vs') weights =
          (match pickWeighted (weights.sum / 2) 0 pairs with
           | some v => v
           | none => ((pairs.getLast?).map Prod.fst).getD 0) := by
        rw [hpairs, hL]
        rfl
      rw [hunfold, hp]
    have hbelow := pickWeighted_below (weights.sum / 2) hsorted hwnn
      (by linarith) hp
    have hle := pickWeighted_le (weights.sum / 2) hsorted hwnn hp
    have htransf1 : wSum (pairs.filter fun x => decide (x.1 < p)) =
        wSum (L.filter fun x => decide (x.1 < p)) := by
      rw [wSum, wSum]
      exact ((hperm.filter _).map Prod.snd).sum_eq
    have htransf2 : wSum (pairs.filter fun x => decide (x.1 ≤ p)) =
        wSum (L.filter fun x => decide (x.1 ≤ p)) := by
      rw [wSum, wSum]
      exact ((hperm.filter _).map Prod.snd).sum_eq
    rw [hmed]
    constructor
    · rw [← htransf1]
      linarith
    · rw [← htransf2]
      linarith

/-- Witness for C3 at the S3 scenario `(1400, 10), (1500, 40), (1600, 50)`
(median 1500). -/
theorem c3_witness :
    wSum (([1400, 1500, 1600].zip [10, 40, 50]).filter
        (fun x => decide (x.1 < weighted_median [1400, 1500, 1600]
          [(10 : ℚ), 40, 50]))) ≤ ([(10 : ℚ), 40, 50]).sum / 2 ∧
    ([(10 : ℚ), 40, 50]).sum / 2 ≤
      wSum (([1400, 1500, 1600].zip [10, 40, 50]).filter
        (fun x => decide (x.1 ≤ weighted_median [1400, 1500, 1600]
          [(10 : ℚ), 40, 50]))) :=
  c3_weighted_median_partition [1400, 1500, 1600] [10, 40, 50] rfl
    (by decide) (by decide)

end Tesseract
